import Mathlib

/-!
Verification of the SScanSS-2 simulation core
(`sscanss/core/instrument/simulation.py`).

The development shallowly embeds the simulation module: the `Simulation`
constructor, the `execute` worker loop, the `CheckResult` poll of the
controller, `populate_collision_manager` and `update_colliders`.  Machine
floats of the source are modelled by exact rationals; the Euclidean norm
comparison `norm v > 0.0001` of the source is embedded as the equivalent
squared comparison `normSq v > 0.0001 ^ 2` (both sides are non-negative, so
the two are equivalent and the latter stays inside `ℚ`).  External
collaborators (the inverse-kinematics solver, forward kinematics, the
path-length calculator, mesh transforms and the collision geometry test)
are parameters of the embedding, exactly as they are opaque calls in the
source.  Cross-process time is modelled by a global step counter: each task
occupies seven steps (solve, checkpoint A, path length, checkpoint B,
collision, checkpoint C, publish) and the cancellation flag is set from an
arbitrary step boundary on.
-/

/-- three-component vector over the rationals -/
structure Vec3 where
  x : ℚ
  y : ℚ
  z : ℚ
deriving DecidableEq, Inhabited

/-- squared Euclidean norm; the source compares `np.linalg.norm(v) > 0.0001`,
which is equivalent to `normSq v > 0.0001 ^ 2` -/
def Vec3.normSq (v : Vec3) : ℚ :=
  v.x * v.x + v.y * v.y + v.z * v.z

/-- 3x3 matrix given by rows -/
structure Mat3 where
  r0 : Vec3
  r1 : Vec3
  r2 : Vec3
deriving DecidableEq, Inhabited

/-- matrix transpose -/
def Mat3.transpose (m : Mat3) : Mat3 :=
  ⟨⟨m.r0.x, m.r1.x, m.r2.x⟩, ⟨m.r0.y, m.r1.y, m.r2.y⟩, ⟨m.r0.z, m.r1.z, m.r2.z⟩⟩

/-- dot product -/
def Vec3.dot (a b : Vec3) : ℚ :=
  a.x * b.x + a.y * b.y + a.z * b.z

/-- matrix-vector product (`m @ v`) -/
def Mat3.mulVec (m : Mat3) (v : Vec3) : Vec3 :=
  ⟨m.r0.dot v, m.r1.dot v, m.r2.dot v⟩

/-- solver exit status (`ik_solver.Status`) -/
inductive Status
  | converged
  | notConverged
  | failed
deriving DecidableEq, Inhabited

/-- exceptions that `Simulation.__init__` can surface.  `indexError` is the
numpy `IndexError` raised when a boolean mask does not match the indexed
array; `configError` is the `ConfigError` named by the specification (no such
class exists anywhere in the repository, the constructor never produces it). -/
inductive SimError
  | indexError
  | configError
deriving DecidableEq

/-- configuration captured by a successful `Simulation.__init__` -/
structure SimConfig where
  nPoints : ℕ
  nAlign : ℕ
  count : ℕ
deriving DecidableEq

/-- numpy boolean-mask row selection `rows[mask]`: fails with `IndexError`
when the mask length differs from the first dimension of the array. -/
def maskSelect {α : Type} (rows : List α) (mask : List Bool) : Except SimError (List α) :=
  if rows.length = mask.length then
    .ok (((rows.zip mask).filter fun rb => rb.2).map fun rb => rb.1)
  else
    .error .indexError

namespace Simulation

/-- embedding of `Simulation.__init__` (simulation.py lines 128-174): selects
the enabled points and the matching vector rows (`vectors[points.enabled]`,
the step that raises `IndexError` on a count mismatch), then records the
shape and the expected result count `count = shape[0] * shape[2]`.
`pointRows` pairs each measurement point with its enabled flag, `vectorRows`
are the first-dimension slices of the vectors array and `nAlign` is its
third dimension. -/
def init {β : Type} (pointRows : List (Vec3 × Bool)) (vectorRows : List β)
    (nAlign : ℕ) : Except SimError SimConfig :=
  match maskSelect vectorRows (pointRows.map fun pr => pr.2) with
  | .error e => .error e
  | .ok sel => .ok ⟨sel.length, nAlign, sel.length * nAlign⟩

end Simulation

/-- one entry of the result queue (`SimulationResult`, simulation.py lines
81-107; the label of the source is kept as its structured content: the
one-based ordinal `index+1` and the zero-based point and alignment indices) -/
structure SimResult where
  ordinal : ℕ
  point : ℕ
  alignment : ℕ
  q : List ℚ
  posError : ℚ
  orientError : Vec3
  code : Status
  path_length : Option (List ℚ)
  collision_mask : Option (List Bool)
deriving DecidableEq, Inhabited

/-- an item placed on the result queue by the worker: either a
`SimulationResult` or the distinguished `'Error'` marker string put by the
exception handler of `execute` (simulation.py line 334) -/
inductive Item
  | res (r : SimResult)
  | errorMarker
deriving DecidableEq, Inhabited

/-- record of one `positioner.ikine` invocation: the task, the point passed
as target position and the measurement-vector / q-vector targets -/
structure SolverCall where
  task : ℕ × ℕ
  point : Vec3
  targets : List Vec3
  qTargets : List Vec3
deriving DecidableEq

/-- external collaborators of the worker, opaque calls in the source: the
inverse-kinematics solver (returns joint configuration, the error pair and a
status), forward kinematics composed with the tool link (`pose`), mesh
transformation, the path-length calculator (gauge volume, beam axis and
diffracted axes folded in), the collision query after `update_colliders`
(a function of the full sample list — one collider per sample mesh
populates the manager — and of the achieved pose), the positioner pose
rotation used by the fallback target, and the fault oracle
(`fault n = true` means an unhandled exception is raised while task number
`n` is processed). -/
structure Externals (M P : Type) where
  ikine : Vec3 → List Vec3 → Vec3 → List Vec3 → List ℚ × (ℚ × Vec3) × Status
  fault : ℕ → Bool
  poseRot : Mat3
  pose : List ℚ → P
  meshTransformed : M → P → M
  pathLengthCalculation : M → List ℚ
  collide : List M → P → List Bool
  meshDefault : M

/-- the arguments dictionary consumed by `Simulation.execute`:
`vectors i j` is `vectors[i, :, j].reshape(-1, 3)`, the direction groups of
point `i` under alignment `j`; `nPoints` and `nAlign` are `shape[0]` and
`shape[2]` of the vectors array. -/
structure WorkerArgs (M : Type) where
  points : List Vec3
  vectors : ℕ → ℕ → List Vec3
  nPoints : ℕ
  nAlign : ℕ
  qVec : List Vec3
  gauge : Vec3
  sample : List M
  beamInGauge : Bool
  computePathLength : Bool
  checkCollision : Bool
  alignFirstOrder : Bool

/-- accumulated observable effects of a worker run: the result queue, the
writes into the shared path-length buffer (cell `(i, j)` together with the
per-detector lengths written to `path_lengths[i, :, j]`) and the solver
calls made, in order. -/
structure WorkerOut where
  queue : List Item
  buffer : List ((ℕ × ℕ) × List ℚ)
  calls : List SolverCall
deriving DecidableEq

/-- cancellation flag at global step `t`: `abortAt = some a` means the
controller's `abort()` ran at step boundary `a`, so `exit_event.is_set()`
is true at every step `t ≥ a`; `abortAt = none` is an uncancelled run. -/
def flagAt (abortAt : Option ℕ) (t : ℕ) : Bool :=
  match abortAt with
  | none => false
  | some a => decide (a ≤ t)

/-- squared epsilon of the active-direction test: the source keeps a group
whose norm exceeds `0.0001` (simulation.py line 288). -/
def epsSq : ℚ := 1 / 100000000

/-- indices of the active direction groups
(`np.where(np.linalg.norm(all_mvs, axis=1) > 0.0001)[0]`) -/
def selectedIdx (groups : List Vec3) : List ℕ :=
  (List.range groups.length).filter fun g =>
    decide (epsSq < Vec3.normSq (groups.getD g default))

/-- target selection of the worker (simulation.py lines 287-294): returns
the pair `(q_vectors, measurement_vectors)` handed to the solver; when no
group is active the fallback is the first q-vector together with that
q-vector re-expressed in the positioner's frame
(`positioner.pose[0:3, 0:3].transpose() @ q_vec[0]`). -/
def selectTargets (qVec : List Vec3) (poseRot : Mat3) (groups : List Vec3) :
    List Vec3 × List Vec3 :=
  let sel := selectedIdx groups
  if sel.isEmpty then
    ([qVec.headD default], [(Mat3.transpose poseRot).mulVec (qVec.headD default)])
  else
    (sel.map fun g => qVec.getD g default, sel.map fun g => groups.getD g default)

/-- outcome of processing one task: `stopped` when a cancellation checkpoint
observed the flag (carrying the solver call already made and the buffer
write already performed, if any), `done` when the task ran to its publish. -/
inductive TaskOutcome
  | stopped (call : SolverCall) (write : Option ((ℕ × ℕ) × List ℚ))
  | done (call : SolverCall) (write : Option ((ℕ × ℕ) × List ℚ)) (result : SimResult)

/-- body of the task loop of `Simulation.execute` (simulation.py lines
284-324) for the task `ij` at enumeration position `n`: target selection,
the `ikine` call, checkpoint A, the conditional path-length computation and
buffer write, checkpoint B, the conditional collision query, checkpoint C,
and the construction of the published result.  The task occupies global
steps `7*n .. 7*n+6`; the checkpoints read the flag at steps `7*n+1`,
`7*n+3` and `7*n+5`. -/
def processTask {M P : Type} (ext : Externals M P) (args : WorkerArgs M)
    (abortAt : Option ℕ) (ij : ℕ × ℕ) (n : ℕ) : TaskOutcome :=
  let t0 := 7 * n
  let groups := args.vectors ij.1 ij.2
  let qm := selectTargets args.qVec ext.poseRot groups
  let pt := args.points.getD ij.1 default
  let call : SolverCall := ⟨ij, pt, qm.2, qm.1⟩
  let sol := ext.ikine pt qm.2 args.gauge qm.1
  if flagAt abortAt (t0 + 1) then .stopped call none
  else
    let pose := ext.pose sol.1
    let lengths : Option (List ℚ) :=
      if args.computePathLength && args.beamInGauge then
        some (ext.pathLengthCalculation
          (ext.meshTransformed (args.sample.headD ext.meshDefault) pose))
      else none
    let write := lengths.map fun l => (ij, l)
    if flagAt abortAt (t0 + 3) then .stopped call write
    else
      let mask : Option (List Bool) :=
        if args.checkCollision then some (ext.collide args.sample pose) else none
      if flagAt abortAt (t0 + 5) then .stopped call write
      else
        .done call write
          ⟨n + 1, ij.1, ij.2, sol.1, sol.2.1.1, sol.2.1.2, sol.2.2, lengths, mask⟩

/-- the worker loop over the remaining tasks: a fault publishes the error
marker and terminates; a checkpoint that observed the flag records the
partial effects and terminates; otherwise the task's result is published
and the loop continues. -/
def runTasks {M P : Type} (ext : Externals M P) (args : WorkerArgs M)
    (abortAt : Option ℕ) : List (ℕ × ℕ) → ℕ → WorkerOut → WorkerOut
  | [], _, acc => acc
  | ij :: rest, n, acc =>
    if ext.fault n then
      { acc with queue := acc.queue ++ [Item.errorMarker] }
    else
      match processTask ext args abortAt ij n with
      | .stopped call write =>
        { acc with buffer := acc.buffer ++ write.toList, calls := acc.calls ++ [call] }
      | .done call write res =>
        runTasks ext args abortAt rest (n + 1)
          { queue := acc.queue ++ [Item.res res],
            buffer := acc.buffer ++ write.toList,
            calls := acc.calls ++ [call] }

/-- task enumeration order (simulation.py lines 275-278): with
`align_first_order` true the point index is the outer loop (all alignments
of point 0 first), otherwise the alignment index is the outer loop. -/
def enumOrder (alignFirstOrder : Bool) (nPoints nAlign : ℕ) : List (ℕ × ℕ) :=
  if alignFirstOrder then
    (List.range nPoints).flatMap fun i => (List.range nAlign).map fun j => (i, j)
  else
    (List.range nAlign).flatMap fun j => (List.range nPoints).map fun i => (i, j)

namespace Simulation

/-- embedding of the static worker entry `Simulation.execute`: iterates the
enumeration order from an empty accumulator. -/
def execute {M P : Type} (ext : Externals M P) (args : WorkerArgs M)
    (abortAt : Option ℕ) : WorkerOut :=
  runTasks ext args abortAt (enumOrder args.alignFirstOrder args.nPoints args.nAlign) 0
    ⟨[], [], []⟩

end Simulation

/-- tasks of the published results, in queue order (the error marker is not
a result and carries no task) -/
def queueTasks (items : List Item) : List (ℕ × ℕ) :=
  items.filterMap fun it =>
    match it with
    | .res r => some (r.point, r.alignment)
    | .errorMarker => none

/-- controller-side state touched by `Simulation.CheckResult`: the pending
queue contents, the collected result list, how many `result_updated`
notifications have been emitted, the poll timer and the liveness of the
worker process. -/
structure ControllerState where
  queue : List Item
  results : List Item
  notifyCount : ℕ
  timerRunning : Bool
  processAlive : Bool
deriving DecidableEq

namespace Simulation

/-- embedding of `Simulation.CheckResult` (simulation.py lines 221-234): an
empty queue returns immediately; otherwise the timer is stopped when the
process has exited, the queue is drained in arrival order into the result
list (the sentinel `put(None)` / `iter(queue.get, None)` pattern of the
source, which with no concurrent producer drains exactly the current
contents) and `result_updated` is emitted exactly once. -/
def CheckResult (s : ControllerState) : ControllerState :=
  if s.queue.isEmpty then s
  else
    let s1 := if s.processAlive then s else { s with timerRunning := false }
    { s1 with
      queue := [],
      results := s1.results ++ s1.queue,
      notifyCount := s1.notifyCount + 1 }

end Simulation

/-- Modelled from the spec: collider kept by the collision manager
(`CollisionManager` of `sscanss/core/instrument/collision.py` is not part of
the sources here; section 4.3 of the specification gives its contract).  A
collider has an id (assigned positionally, in order of addition), the set of
ids it is excluded from colliding with (the boolean `excludes` array of the
source read as the set of indices holding `True`), a movable flag and its
geometry. -/
structure Collider (G : Type) where
  id : ℕ
  excludes : List ℕ
  movable : Bool
  geometry : G
deriving DecidableEq

/-- Modelled from the spec: the exclusion policies of `addColliders`
(`{None, Consecutive, All}`; `Consecutive` excludes collision checks between
items added consecutively in the same call, `All` excludes all pairs within
the group). -/
inductive ExcludeMode
  | noPolicy
  | consecutive
  | all
deriving DecidableEq

/-- Modelled from the spec: the collision manager is the ordered list of its
colliders. -/
structure CollisionManager (G : Type) where
  colliders : List (Collider G)
deriving DecidableEq

/-- Modelled from the spec: `manager.clear()` -/
def CollisionManager.empty {G : Type} : CollisionManager G := ⟨[]⟩

/-- Modelled from the spec: exclusion set given to the `m`-th member of a
freshly added group of size `k` whose first member receives id `startId`. -/
def groupExcludes (mode : ExcludeMode) (startId k m : ℕ) : List ℕ :=
  match mode with
  | .noPolicy => []
  | .consecutive =>
    (if 0 < m then [startId + m - 1] else []) ++
      (if m + 1 < k then [startId + m + 1] else [])
  | .all => ((List.range k).filter fun m2 => decide (m2 ≠ m)).map fun m2 => startId + m2

/-- Modelled from the spec: `manager.addColliders(nodes, ..., exclude, movable)`
appends one collider per node, ids continuing positionally
(`manager.colliders[-1].id + 1`), with the exclusion policy applied inside
the new group. -/
def CollisionManager.addColliders {G : Type} (mgr : CollisionManager G)
    (nodes : List G) (mode : ExcludeMode) (movable : Bool) : CollisionManager G :=
  let s := mgr.colliders.length
  ⟨mgr.colliders ++ nodes.enum.map fun mg =>
    ⟨s + mg.1, groupExcludes mode s nodes.length mg.1, movable, mg.2⟩⟩

/-- sets `colliders[p].excludes[t] = True` (positional index `p`, which under
the positional id assignment equals the collider id used by the source) -/
def setExcludeList {G : Type} : List (Collider G) → ℕ → ℕ → List (Collider G)
  | [], _, _ => []
  | c :: cs, 0, t => { c with excludes := t :: c.excludes } :: cs
  | c :: cs, p + 1, t => c :: setExcludeList cs p t

/-- manager-level wrapper of `setExcludeList` -/
def CollisionManager.setExclude {G : Type} (mgr : CollisionManager G) (p t : ℕ) :
    CollisionManager G :=
  ⟨setExcludeList mgr.colliders p t⟩

/-- whether the collider at position `p` excludes id `t` -/
def CollisionManager.hasExclude {G : Type} (mgr : CollisionManager G) (p t : ℕ) : Bool :=
  match mgr.colliders.get? p with
  | some c => c.excludes.contains t
  | none => false

/-- Modelled from the spec: `manager.collide()` returns one boolean per
collider: whether it participates in any detected collision, a pair being
tested only when neither partner excludes the other.  The geometric
broad-phase/narrow-phase test itself is the oracle `touching`. -/
def CollisionManager.collide {G : Type} (mgr : CollisionManager G)
    (touching : ℕ → ℕ → Bool) : List Bool :=
  mgr.colliders.map fun c =>
    mgr.colliders.any fun d =>
      decide (d.id ≠ c.id) && !(c.excludes.contains d.id) &&
        !(d.excludes.contains c.id) && touching c.id d.id

/-- a child of the instrument scene node: its geometry and its transform -/
structure SceneNode (G P : Type) where
  geometry : G
  transform : P

/-- attribute names keyed in the instrument node index; only
`Attributes.Positioner` receives special treatment in the source -/
inductive AttrName
  | positioner
  | other
deriving DecidableEq

/-- loop body of `populate_collision_manager` (simulation.py lines 59-75)
over the `(name, end_index)` entries of the instrument node index:
`children[start:end]` is the attribute's node group; a positioner group is
added with the `Consecutive` policy and movable, and mutual exclusions are
then installed between every sample collider (positions `0..sampleLen-1`)
and the last collider of the manager (`manager.colliders[-1]`, the tool
link); the positioner id range is accumulated; any other group is added
with the `Consecutive` policy, immovable. -/
def positionerStep {G P : Type} (gtransform : G → P → G) (sampleLen : ℕ)
    (mgr : CollisionManager G) (posIds : List ℕ) (group : List (SceneNode G P)) :
    CollisionManager G × List ℕ :=
  let startId := mgr.colliders.length
  let mgr1 := mgr.addColliders
    (group.map fun nd => gtransform nd.geometry nd.transform) .consecutive true
  let lastId := mgr1.colliders.length - 1
  let mgr2 := (List.range sampleLen).foldl
    (fun m s => (m.setExclude s lastId).setExclude lastId s) mgr1
  (mgr2, posIds ++ List.range' startId (lastId + 1 - startId))

/-- loop of `populate_collision_manager` over the `(name, end_index)`
entries of the instrument node index, dispatching the positioner groups to
`positionerStep` and adding every other group with the `Consecutive`
policy, immovable. -/
def populateLoop {G P : Type} (gtransform : G → P → G)
    (children : List (SceneNode G P)) (sampleLen : ℕ) :
    List (AttrName × ℕ) → ℕ → CollisionManager G → List ℕ →
      CollisionManager G × List ℕ
  | [], _, mgr, posIds => (mgr, posIds)
  | (name, endIdx) :: rest, startIdx, mgr, posIds =>
    let group := (children.drop startIdx).take (endIdx - startIdx)
    if name = AttrName.positioner then
      let out := positionerStep gtransform sampleLen mgr posIds group
      populateLoop gtransform children sampleLen rest endIdx out.1 out.2
    else
      let mgr1 := mgr.addColliders (group.map fun nd => nd.geometry) .consecutive false
      populateLoop gtransform children sampleLen rest endIdx mgr1 posIds

/-- embedding of `populate_collision_manager` (simulation.py lines 36-78):
clears the manager, adds the sample colliders (each transformed by the
sample pose) under the `All` policy, movable, then walks the instrument
node index; returns the manager together with the sample collider ids and
the positioner collider ids. -/
def populate_collision_manager {G P : Type} (gtransform : G → P → G)
    (sample : List G) (samplePose : P) (children : List (SceneNode G P))
    (indices : List (AttrName × ℕ)) :
    CollisionManager G × List ℕ × List ℕ :=
  let mgr := (CollisionManager.empty).addColliders
    (sample.map fun g => gtransform g samplePose) .all true
  let sampleIds := List.range sample.length
  let out := populateLoop gtransform children sample.length indices 0 mgr []
  (out.1, sampleIds, out.2)

/-- transforms the geometry of the collider at position `i`
(`manager.colliders[i].geometry.transform(...)`) -/
def transformCollider {G P : Type} (gtransform : G → P → G)
    (mgr : CollisionManager G) (i : ℕ) (p : P) : CollisionManager G :=
  ⟨mgr.colliders.enum.map fun ic =>
    if ic.1 = i then { ic.2 with geometry := gtransform ic.2.geometry p } else ic.2⟩

/-- embedding of `update_colliders` (simulation.py lines 13-33): transforms
every sample collider by the sample pose and every positioner collider by
its node's transform, then rebuilds the bounding volumes (a geometry-only
operation). -/
def update_colliders {G P : Type} (gtransform : G → P → G)
    (mgr : CollisionManager G) (samplePose : P) (sampleIds : List ℕ)
    (positionerNodes : List (SceneNode G P)) (positionerIds : List ℕ) :
    CollisionManager G :=
  let mgr1 := sampleIds.foldl (fun m i => transformCollider gtransform m i samplePose) mgr
  (positionerIds.zip positionerNodes).foldl
    (fun m inode => transformCollider gtransform m inode.1 inode.2.transform) mgr1

/-- solver call made for task `ij` (the checkpoint-free part of the body) -/
def taskCall {M P : Type} (ext : Externals M P) (args : WorkerArgs M)
    (ij : ℕ × ℕ) : SolverCall :=
  let qm := selectTargets args.qVec ext.poseRot (args.vectors ij.1 ij.2)
  ⟨ij, args.points.getD ij.1 default, qm.2, qm.1⟩

/-- per-detector lengths computed for task `ij`, when the path length is
computed at all -/
def taskLengths {M P : Type} (ext : Externals M P) (args : WorkerArgs M)
    (ij : ℕ × ℕ) : Option (List ℚ) :=
  let qm := selectTargets args.qVec ext.poseRot (args.vectors ij.1 ij.2)
  let sol := ext.ikine (args.points.getD ij.1 default) qm.2 args.gauge qm.1
  if args.computePathLength && args.beamInGauge then
    some (ext.pathLengthCalculation
      (ext.meshTransformed (args.sample.headD ext.meshDefault) (ext.pose sol.1)))
  else none

/-- buffer write performed for task `ij`, when any -/
def taskWrite {M P : Type} (ext : Externals M P) (args : WorkerArgs M)
    (ij : ℕ × ℕ) : Option ((ℕ × ℕ) × List ℚ) :=
  (taskLengths ext args ij).map fun l => (ij, l)

/-- result published for task `ij` at enumeration position `n` -/
def taskRes {M P : Type} (ext : Externals M P) (args : WorkerArgs M)
    (ij : ℕ × ℕ) (n : ℕ) : SimResult :=
  let qm := selectTargets args.qVec ext.poseRot (args.vectors ij.1 ij.2)
  let sol := ext.ikine (args.points.getD ij.1 default) qm.2 args.gauge qm.1
  ⟨n + 1, ij.1, ij.2, sol.1, sol.2.1.1, sol.2.1.2, sol.2.2,
    taskLengths ext args ij,
    if args.checkCollision then some (ext.collide args.sample (ext.pose sol.1)) else none⟩

/-- queue produced by an uninterrupted, fault-free traversal of `order`
starting at enumeration position `n` -/
def fullQueue {M P : Type} (ext : Externals M P) (args : WorkerArgs M) :
    List (ℕ × ℕ) → ℕ → List Item
  | [], _ => []
  | ij :: rest, n => Item.res (taskRes ext args ij n) :: fullQueue ext args rest (n + 1)

/-- buffer writes of the same traversal -/
def fullBuffer {M P : Type} (ext : Externals M P) (args : WorkerArgs M) :
    List (ℕ × ℕ) → List ((ℕ × ℕ) × List ℚ)
  | [] => []
  | ij :: rest => (taskWrite ext args ij).toList ++ fullBuffer ext args rest

/-- solver calls of the same traversal -/
def fullCalls {M P : Type} (ext : Externals M P) (args : WorkerArgs M) :
    List (ℕ × ℕ) → List SolverCall
  | [] => []
  | ij :: rest => taskCall ext args ij :: fullCalls ext args rest

/-- concrete externals for witnesses: trivial solver and geometry -/
def extW : Externals Unit Unit :=
  ⟨fun _ _ _ _ => ([], (0, default), .converged), fun _ => false, default,
    fun _ => (), fun m _ => m, fun _ => [], fun _ _ => [], ()⟩

/-- concrete worker arguments: 2 points, 2 alignments, point-first order -/
def argsW : WorkerArgs Unit :=
  ⟨[], fun _ _ => [], 2, 2, [], default, [], false, false, false, true⟩

/-- concrete worker arguments: 2 points, 2 alignments, alignment-first order -/
def argsWF : WorkerArgs Unit :=
  ⟨[], fun _ _ => [], 2, 2, [], default, [], false, false, false, false⟩

/-- concrete point rows: two points, both enabled -/
def prW : List (Vec3 × Bool) := [(default, true), (default, true)]

/-- concrete vector rows matching `prW` -/
def vrW : List ℕ := [0, 1]

/-- concrete worker arguments: 2 points, 1 alignment -/
def argsW21 : WorkerArgs Unit :=
  ⟨[], fun _ _ => [], 2, 1, [], default, [], false, false, false, true⟩

/-- concrete worker arguments: 2 points, 1 alignment, path length on, beam
in gauge volume -/
def argsWPL : WorkerArgs Unit :=
  ⟨[], fun _ _ => [], 2, 1, [], default, [()], true, true, false, true⟩

/-- a solver call whose targets are exactly the selection computed from the
task's direction groups -/
def callUsesSelection {M P : Type} (ext : Externals M P) (args : WorkerArgs M)
    (c : SolverCall) : Prop :=
  c.targets = (selectTargets args.qVec ext.poseRot (args.vectors c.task.1 c.task.2)).2 ∧
    c.qTargets = (selectTargets args.qVec ext.poseRot (args.vectors c.task.1 c.task.2)).1

/-- an all-zero direction group (inactive: its norm is below the epsilon) -/
def grpW : List Vec3 := [⟨0, 0, 0⟩]

/-- vector rows whose first dimension (3) does not match the 2 points of
`prW` -/
def vrBad : List ℕ := [0, 1, 2]

/-- externals that fault on task number 1 -/
def extF : Externals Unit Unit := { extW with fault := fun n => decide (n = 1) }

/-- concrete worker arguments: 3 points, 1 alignment -/
def argsW31 : WorkerArgs Unit :=
  ⟨[], fun _ _ => [], 3, 1, [], default, [], false, false, false, true⟩

/-- empty controller state -/
def sEmptyW : ControllerState := ⟨[], [], 0, true, true⟩

/-- controller state with one pending result -/
def sDataW : ControllerState := ⟨[Item.res default], [], 0, true, true⟩

/-- externals over ℕ meshes whose path length is the mesh value itself -/
def extN : Externals ℕ Unit :=
  ⟨fun _ _ _ _ => ([], (0, default), .converged), fun _ => false, default,
    fun _ => (), fun m _ => m, fun m => [(m : ℚ)], fun _ _ => [], 0⟩

/-- concrete arguments with two sample meshes `[5, 7]` and path length on -/
def argsN : WorkerArgs ℕ :=
  ⟨[], fun _ _ => [], 1, 1, [], default, [5, 7], true, true, false, true⟩

/-- concrete instrument children for the C9 witness: two positioner links -/
def childW : List (SceneNode ℕ Unit) := [⟨1, ()⟩, ⟨2, ()⟩]

/-- concrete instrument node index: one positioner group covering both
children -/
def idxW : List (AttrName × ℕ) := [(AttrName.positioner, 2)]

/-- a result with its collision-mask field erased: the projection of a
`SimulationResult` onto everything the path-length claim speaks about
(identifier, joint configuration, errors, status, alignment and the
per-detector path lengths) -/
def stripMask (r : SimResult) : SimResult :=
  { r with collision_mask := none }

/-- erases the collision mask of a queue item -/
def stripItem : Item → Item
  | .res r => .res (stripMask r)
  | .errorMarker => .errorMarker

/-- erases the collision masks of a whole queue -/
def stripItems (items : List Item) : List Item :=
  items.map stripItem

/-- erases the collision mask of a task outcome -/
def stripOutcome : TaskOutcome → TaskOutcome
  | .stopped c w => .stopped c w
  | .done c w r => .done c w (stripMask r)

/-- externals over ℕ meshes whose collision query reports one entry per
sample mesh (the mask genuinely depends on the whole sample list) -/
def extN2 : Externals ℕ Unit :=
  { extN with collide := fun sm _ => sm.map fun _ => true }

/-- concrete arguments `argsN` with collision checking switched on -/
def argsN2 : WorkerArgs ℕ :=
  { argsN with checkCollision := true }

theorem processTask_none {M P : Type} (ext : Externals M P) (args : WorkerArgs M)
    (ij : ℕ × ℕ) (n : ℕ) :
    processTask ext args none ij n =
      .done (taskCall ext args ij) (taskWrite ext args ij) (taskRes ext args ij n) := by
  simp [processTask, flagAt, taskCall, taskWrite, taskRes, taskLengths]

theorem processTask_stopped {M P : Type} {ext : Externals M P} {args : WorkerArgs M}
    {abortAt : Option ℕ} {ij : ℕ × ℕ} {n : ℕ} {c : SolverCall}
    {w : Option ((ℕ × ℕ) × List ℚ)}
    (h : processTask ext args abortAt ij n = .stopped c w) :
    c = taskCall ext args ij ∧ (w = none ∨ w = taskWrite ext args ij) := by
  simp only [processTask] at h
  split at h
  · cases h
    exact ⟨rfl, Or.inl rfl⟩
  · split at h
    · cases h
      exact ⟨rfl, Or.inr (by simp [taskWrite, taskLengths])⟩
    · split at h
      · cases h
        exact ⟨rfl, Or.inr (by simp [taskWrite, taskLengths])⟩
      · cases h

theorem processTask_done {M P : Type} {ext : Externals M P} {args : WorkerArgs M}
    {abortAt : Option ℕ} {ij : ℕ × ℕ} {n : ℕ} {c : SolverCall}
    {w : Option ((ℕ × ℕ) × List ℚ)} {r : SimResult}
    (h : processTask ext args abortAt ij n = .done c w r) :
    c = taskCall ext args ij ∧ w = taskWrite ext args ij ∧ r = taskRes ext args ij n := by
  simp only [processTask] at h
  split at h
  · cases h
  · split at h
    · cases h
    · split at h
      · cases h
      · cases h
        exact ⟨rfl, by simp [taskWrite, taskLengths], by simp [taskRes, taskLengths]⟩

theorem runTasks_none {M P : Type} (ext : Externals M P) (args : WorkerArgs M)
    (hnf : ∀ n, ext.fault n = false) :
    ∀ (order : List (ℕ × ℕ)) (n : ℕ) (acc : WorkerOut),
      runTasks ext args none order n acc =
        ⟨acc.queue ++ fullQueue ext args order n,
          acc.buffer ++ fullBuffer ext args order,
          acc.calls ++ fullCalls ext args order⟩ := by
  intro order
  induction order with
  | nil => intro n acc; simp [runTasks, fullQueue, fullBuffer, fullCalls]
  | cons ij rest ih =>
    intro n acc
    simp only [runTasks, hnf, Bool.false_eq_true, if_false, processTask_none]
    rw [ih]
    simp [fullQueue, fullBuffer, fullCalls]

theorem fullQueue_length {M P : Type} (ext : Externals M P) (args : WorkerArgs M) :
    ∀ (order : List (ℕ × ℕ)) (n : ℕ),
      (fullQueue ext args order n).length = order.length := by
  intro order
  induction order with
  | nil => intro n; rfl
  | cons ij rest ih => intro n; simp [fullQueue, ih]

theorem queueTasks_fullQueue {M P : Type} (ext : Externals M P) (args : WorkerArgs M) :
    ∀ (order : List (ℕ × ℕ)) (n : ℕ),
      queueTasks (fullQueue ext args order n) = order := by
  intro order
  induction order with
  | nil => intro n; rfl
  | cons ij rest ih =>
    intro n
    simp [fullQueue, queueTasks, taskRes] at ih ⊢
    exact ih (n + 1)

theorem enumOrder_length (afo : Bool) (nPoints nAlign : ℕ) :
    (enumOrder afo nPoints nAlign).length = nPoints * nAlign := by
  cases afo <;>
    simp [enumOrder, List.length_flatMap, Function.comp_def, Nat.mul_comm]

theorem maskSelect_ok_length {α : Type} :
    ∀ (rows : List α) (mask : List Bool), rows.length = mask.length →
      ((rows.zip mask).filter fun rb => rb.2).length =
        (mask.filter fun b => b).length := by
  intro rows
  induction rows with
  | nil =>
    intro mask h
    cases mask with
    | nil => rfl
    | cons b bs => cases h
  | cons r rs ih =>
    intro mask h
    cases mask with
    | nil => cases h
    | cons b bs =>
      have h2 : rs.length = bs.length := Nat.succ_injective h
      cases b
      · simpa using ih bs h2
      · simpa using ih bs h2

theorem filter_snd_length (pointRows : List (Vec3 × Bool)) :
    ((pointRows.map fun pr => pr.2).filter fun b => b).length =
      (pointRows.filter fun pr => pr.2).length := by
  induction pointRows with
  | nil => rfl
  | cons pr rest ih => cases h : pr.2 <;> simp [List.filter, h, ih]

theorem init_ok {β : Type} {pointRows : List (Vec3 × Bool)} {vectorRows : List β}
    {K : ℕ} {cfg : SimConfig}
    (h : Simulation.init pointRows vectorRows K = .ok cfg) :
    cfg.nAlign = K ∧ cfg.nPoints = (pointRows.filter fun pr => pr.2).length ∧
      cfg.count = cfg.nPoints * cfg.nAlign := by
  simp only [Simulation.init, maskSelect] at h
  split at h
  · cases h
  · cases h
    rename_i sel heq
    split at heq
    · cases heq
      refine ⟨rfl, ?_, rfl⟩
      rename_i hlen
      have h1 := maskSelect_ok_length vectorRows (pointRows.map fun pr => pr.2)
        (by simpa using hlen)
      simpa [filter_snd_length] using h1
    · cases heq

/-- C1: for every valid configuration, the expected task count computed at
construction equals the number of enabled measurement points times the
number of alignments, and a worker run that is neither cancelled
(`abortAt = none`) nor faulted (`fault` constantly false) publishes exactly
`count` results on the channel, one per task of the enumeration order. -/
theorem claim1_count_and_uninterrupted_results {β M P : Type}
    (ext : Externals M P) (args : WorkerArgs M)
    (pointRows : List (Vec3 × Bool)) (vectorRows : List β) (K : ℕ)
    (cfg : SimConfig)
    (hinit : Simulation.init pointRows vectorRows K = .ok cfg)
    (hP : args.nPoints = cfg.nPoints) (hA : args.nAlign = cfg.nAlign)
    (hnf : ∀ n, ext.fault n = false) :
    cfg.count = (pointRows.filter fun pr => pr.2).length * K ∧
      (Simulation.execute ext args none).queue.length = cfg.count ∧
      queueTasks (Simulation.execute ext args none).queue =
        enumOrder args.alignFirstOrder args.nPoints args.nAlign := by
  obtain ⟨hK, hN, hC⟩ := init_ok hinit
  refine ⟨by rw [hC, hN, hK], ?_, ?_⟩
  · rw [Simulation.execute, runTasks_none ext args hnf]
    simp [fullQueue_length, enumOrder_length, hP, hA, hC]
  · rw [Simulation.execute, runTasks_none ext args hnf]
    simpa using queueTasks_fullQueue ext args _ 0

/-- C1 witness: the theorem applied to the concrete two-point, two-alignment
configuration. -/
theorem claim1_witness :
    (⟨2, 2, 4⟩ : SimConfig).count = (prW.filter fun pr => pr.2).length * 2 ∧
      (Simulation.execute extW argsW none).queue.length = (⟨2, 2, 4⟩ : SimConfig).count ∧
      queueTasks (Simulation.execute extW argsW none).queue =
        enumOrder argsW.alignFirstOrder argsW.nPoints argsW.nAlign :=
  claim1_count_and_uninterrupted_results extW argsW prW vrW 2 ⟨2, 2, 4⟩
    rfl rfl rfl (fun _ => rfl)

/-- C2 counterexample: for `N = 2` points, `K = 2` alignments and
`align_first_order = true` the worker publishes the task order
`[(0,0), (0,1), (1,0), (1,1)]` (all alignments of point 0 first), not the
order `[(0,0), (1,0), (0,1), (1,1)]` asserted by the claim; with
`align_first_order = false` the two sequences swap roles.  The claim's
point-major/alignment-major labelling matches the code, its two concrete
example sequences are interchanged. -/
theorem claim2_counterexample :
    queueTasks (Simulation.execute extW argsW none).queue =
        [(0, 0), (0, 1), (1, 0), (1, 1)] ∧
      queueTasks (Simulation.execute extW argsW none).queue ≠
        [(0, 0), (1, 0), (0, 1), (1, 1)] ∧
      queueTasks (Simulation.execute extW argsWF none).queue =
        [(0, 0), (1, 0), (0, 1), (1, 1)] ∧
      queueTasks (Simulation.execute extW argsWF none).queue ≠
        [(0, 0), (0, 1), (1, 0), (1, 1)] := by
  refine ⟨rfl, ?_, rfl, ?_⟩ <;> decide

/-- C2 amended: the worker enumerates tasks point-major when
`align_first_order` is true and alignment-major when it is false, and an
uninterrupted fault-free run publishes its results exactly in that order;
for `N = 2, K = 2` the point-major enumeration is
`[(0,0), (0,1), (1,0), (1,1)]` and the alignment-major enumeration is
`[(0,0), (1,0), (0,1), (1,1)]` (the claim's two example sequences were
interchanged). -/
theorem claim2_task_order {M P : Type} (ext : Externals M P) (args : WorkerArgs M)
    (hnf : ∀ n, ext.fault n = false) :
    queueTasks (Simulation.execute ext args none).queue =
        enumOrder args.alignFirstOrder args.nPoints args.nAlign ∧
      enumOrder true 2 2 = [(0, 0), (0, 1), (1, 0), (1, 1)] ∧
      enumOrder false 2 2 = [(0, 0), (1, 0), (0, 1), (1, 1)] := by
  refine ⟨?_, by decide, by decide⟩
  rw [Simulation.execute, runTasks_none ext args hnf]
  simpa using queueTasks_fullQueue ext args _ 0

/-- C2 witness: the amended theorem at the concrete point-first
configuration. -/
theorem claim2_witness :
    queueTasks (Simulation.execute extW argsW none).queue =
        enumOrder argsW.alignFirstOrder argsW.nPoints argsW.nAlign ∧
      enumOrder true 2 2 = [(0, 0), (0, 1), (1, 0), (1, 1)] ∧
      enumOrder false 2 2 = [(0, 0), (1, 0), (0, 1), (1, 1)] :=
  claim2_task_order extW argsW (fun _ => rfl)

theorem queueTasks_append (a b : List Item) :
    queueTasks (a ++ b) = queueTasks a ++ queueTasks b := by
  simp [queueTasks, List.filterMap_append]

theorem runTasks_queue_extends {M P : Type} (ext : Externals M P)
    (args : WorkerArgs M) (abortAt : Option ℕ) :
    ∀ (order : List (ℕ × ℕ)) (n : ℕ) (acc : WorkerOut),
      ∃ l, (runTasks ext args abortAt order n acc).queue = acc.queue ++ l := by
  intro order
  induction order with
  | nil => intro n acc; exact ⟨[], by simp [runTasks]⟩
  | cons ij rest ih =>
    intro n acc
    cases hf : ext.fault n with
    | true => exact ⟨[Item.errorMarker], by simp [runTasks, hf]⟩
    | false =>
      cases hp : processTask ext args abortAt ij n with
      | stopped c w => exact ⟨[], by simp [runTasks, hf, hp]⟩
      | done c w r =>
        obtain ⟨l, hl⟩ := ih (n + 1)
          ⟨acc.queue ++ [Item.res r], acc.buffer ++ w.toList, acc.calls ++ [c]⟩
        exact ⟨[Item.res r] ++ l, by simp [runTasks, hf, hp, hl]⟩

theorem runTasks_abort_prefix {M P : Type} (ext : Externals M P)
    (args : WorkerArgs M) (a : ℕ) :
    ∀ (order : List (ℕ × ℕ)) (n : ℕ) (acc : WorkerOut),
      (runTasks ext args (some a) order n acc).queue <+:
        (runTasks ext args none order n acc).queue := by
  intro order
  induction order with
  | nil => intro n acc; exact List.prefix_refl _
  | cons ij rest ih =>
    intro n acc
    cases hf : ext.fault n with
    | true => simp [runTasks, hf]
    | false =>
      cases hp : processTask ext args (some a) ij n with
      | stopped c w =>
        simp only [runTasks, hf, Bool.false_eq_true, if_false, hp,
          processTask_none ext args ij n]
        obtain ⟨l, hl⟩ := runTasks_queue_extends ext args none rest (n + 1)
          ⟨acc.queue ++ [Item.res (taskRes ext args ij n)],
            acc.buffer ++ (taskWrite ext args ij).toList,
            acc.calls ++ [taskCall ext args ij]⟩
        rw [hl]
        simp [List.append_assoc]
      | done c w r =>
        obtain ⟨hc, hw, hr⟩ := processTask_done hp
        subst hc hw hr
        simp only [runTasks, hf, Bool.false_eq_true, if_false, hp,
          processTask_none ext args ij n]
        exact ih (n + 1) _

theorem runTasks_calls_vs_queue {M P : Type} (ext : Externals M P)
    (args : WorkerArgs M) (abortAt : Option ℕ) :
    ∀ (order : List (ℕ × ℕ)) (n : ℕ) (acc : WorkerOut),
      acc.calls.map (fun c => c.task) = queueTasks acc.queue →
        ((runTasks ext args abortAt order n acc).calls.map (fun c => c.task) =
            queueTasks (runTasks ext args abortAt order n acc).queue) ∨
          (∃ t, (runTasks ext args abortAt order n acc).calls.map (fun c => c.task) =
            queueTasks (runTasks ext args abortAt order n acc).queue ++ [t]) := by
  intro order
  induction order with
  | nil => intro n acc h; exact Or.inl h
  | cons ij rest ih =>
    intro n acc h
    cases hf : ext.fault n with
    | true =>
      refine Or.inl ?_
      simp [runTasks, hf, queueTasks_append, queueTasks, h]
    | false =>
      cases hp : processTask ext args abortAt ij n with
      | stopped c w =>
        refine Or.inr ⟨c.task, ?_⟩
        simp [runTasks, hf, hp, queueTasks_append, queueTasks, h]
      | done c w r =>
        obtain ⟨hc, hw, hr⟩ := processTask_done hp
        simp only [runTasks, hf, Bool.false_eq_true, if_false, hp]
        refine ih (n + 1) _ ?_
        have ht : c.task = (r.point, r.alignment) := by
          subst hc hr
          simp [taskCall, taskRes]
        simp [queueTasks_append, queueTasks, h, ht]

/-- C3 counterexample: the loop has no cancellation check before the solver
call, so a task can still begin after `abort()`.  With 2 points, 1 alignment
and the flag set from step 7 on (task 0 occupies steps 0-6, publishing at
step 6; task 1's solve is step 7), the flag is already set when task 1's
solve begins, yet the solver is invoked for task 1 (two solver calls are
recorded) — only its checkpoint A then stops the loop, so just one result is
published.  This refutes the conjunct "after abort() sets the cancellation
flag, no new task begins". -/
theorem claim3_counterexample :
    (Simulation.execute extW argsW21 (some 7)).calls.map (fun c => c.task) =
        [(0, 0), (1, 0)] ∧
      queueTasks (Simulation.execute extW argsW21 (some 7)).queue = [(0, 0)] ∧
      flagAt (some 7) 7 = true := by
  refine ⟨?_, ?_, rfl⟩ <;> decide

/-- C3 amended: after `abort()` sets the flag at step boundary `a`, at most
one further task may begin its solve (the task in flight, which stops at its
next checkpoint without publishing): the tasks of the published results are
exactly the solver calls made, except possibly the one last call whose
checkpoint observed the flag; and the results published on the aborted run
are preserved, forming a prefix (in order) of the uninterrupted run's
results. -/
theorem claim3_abort_stops_without_publishing {M P : Type} (ext : Externals M P)
    (args : WorkerArgs M) (a : ℕ) :
    ((Simulation.execute ext args (some a)).queue <+:
        (Simulation.execute ext args none).queue) ∧
      (((Simulation.execute ext args (some a)).calls.map (fun c => c.task) =
          queueTasks (Simulation.execute ext args (some a)).queue) ∨
        (∃ t, (Simulation.execute ext args (some a)).calls.map (fun c => c.task) =
          queueTasks (Simulation.execute ext args (some a)).queue ++ [t])) := by
  constructor
  · exact runTasks_abort_prefix ext args a _ 0 _
  · exact runTasks_calls_vs_queue ext args (some a) _ 0 ⟨[], [], []⟩ rfl

theorem fullBuffer_of_active {M P : Type} (ext : Externals M P) (args : WorkerArgs M)
    (h : (args.computePathLength && args.beamInGauge) = true) :
    ∀ order : List (ℕ × ℕ),
      ((fullBuffer ext args order).map fun e => e.1) = order := by
  intro order
  induction order with
  | nil => rfl
  | cons ij rest ih => simp [fullBuffer, taskWrite, taskLengths, h, ih]

theorem fullBuffer_of_inactive {M P : Type} (ext : Externals M P) (args : WorkerArgs M)
    (h : (args.computePathLength && args.beamInGauge) = false) :
    ∀ order : List (ℕ × ℕ), fullBuffer ext args order = [] := by
  intro order
  induction order with
  | nil => rfl
  | cons ij rest ih => simp [fullBuffer, taskWrite, taskLengths, h, ih]

theorem fullQueue_path_length {M P : Type} (ext : Externals M P) (args : WorkerArgs M) :
    ∀ (order : List (ℕ × ℕ)) (n : ℕ) (r : SimResult),
      Item.res r ∈ fullQueue ext args order n →
        r.path_length = taskLengths ext args (r.point, r.alignment) := by
  intro order
  induction order with
  | nil => intro n r h; cases h
  | cons ij rest ih =>
    intro n r h
    rcases List.mem_cons.mp h with h1 | h1
    · cases h1
      simp [taskRes]
    · exact ih (n + 1) r h1

/-- C4: in an uninterrupted fault-free run, when `compute_path_length` and
the beam-in-gauge flag are both true, the shared path-length buffer cell
`[i, :, j]` is written for every completed task `(i, j)` (one write per task,
in order) and every published result carries a path-length value; in every
other case the buffer is never written and every published result's
path-length field is `None`. -/
theorem claim4_path_length_iff {M P : Type} (ext : Externals M P)
    (args : WorkerArgs M) (hnf : ∀ n, ext.fault n = false) :
    ((args.computePathLength && args.beamInGauge) = true →
      (((Simulation.execute ext args none).buffer.map fun e => e.1) =
          enumOrder args.alignFirstOrder args.nPoints args.nAlign ∧
        ∀ r : SimResult, Item.res r ∈ (Simulation.execute ext args none).queue →
          (r.path_length).isSome = true)) ∧
      ((args.computePathLength && args.beamInGauge) = false →
        ((Simulation.execute ext args none).buffer = [] ∧
          ∀ r : SimResult, Item.res r ∈ (Simulation.execute ext args none).queue →
            r.path_length = none)) := by
  rw [Simulation.execute, runTasks_none ext args hnf]
  constructor
  · intro h
    refine ⟨by simpa using fullBuffer_of_active ext args h _, ?_⟩
    intro r hr
    rw [fullQueue_path_length ext args _ 0 r (by simpa using hr)]
    simp [taskLengths, h]
  · intro h
    refine ⟨by simpa using fullBuffer_of_inactive ext args h _, ?_⟩
    intro r hr
    rw [fullQueue_path_length ext args _ 0 r (by simpa using hr)]
    simp [taskLengths, h]

/-- C4 witness: the theorem applied with both flags true (every cell of the
concrete run's buffer is written, one per task) and, at a second concrete
configuration, with `compute_path_length` false (no write at all). -/
theorem claim4_witness :
    (((Simulation.execute extW argsWPL none).buffer.map fun e => e.1) =
        enumOrder argsWPL.alignFirstOrder argsWPL.nPoints argsWPL.nAlign) ∧
      (Simulation.execute extW argsW none).buffer = [] :=
  ⟨((claim4_path_length_iff extW argsWPL (fun _ => rfl)).1 rfl).1,
    ((claim4_path_length_iff extW argsW (fun _ => rfl)).2 rfl).1⟩

theorem taskCall_usesSelection {M P : Type} (ext : Externals M P)
    (args : WorkerArgs M) (ij : ℕ × ℕ) :
    callUsesSelection ext args (taskCall ext args ij) := by
  simp [taskCall, callUsesSelection]

theorem runTasks_calls_useSelection {M P : Type} (ext : Externals M P)
    (args : WorkerArgs M) (abortAt : Option ℕ) :
    ∀ (order : List (ℕ × ℕ)) (n : ℕ) (acc : WorkerOut),
      (∀ c ∈ acc.calls, callUsesSelection ext args c) →
        ∀ c ∈ (runTasks ext args abortAt order n acc).calls,
          callUsesSelection ext args c := by
  intro order
  induction order with
  | nil => intro n acc h; simpa [runTasks] using h
  | cons ij rest ih =>
    intro n acc h
    cases hf : ext.fault n with
    | true => simpa [runTasks, hf] using h
    | false =>
      cases hp : processTask ext args abortAt ij n with
      | stopped c0 w =>
        obtain ⟨hc, -⟩ := processTask_stopped hp
        subst hc
        simp only [runTasks, hf, Bool.false_eq_true, if_false, hp]
        intro c hc
        rcases List.mem_append.mp hc with h1 | h1
        · exact h c h1
        · rcases List.mem_singleton.mp h1 with rfl
          exact taskCall_usesSelection ext args ij
      | done c0 w r =>
        obtain ⟨hc, -, -⟩ := processTask_done hp
        subst hc
        simp only [runTasks, hf, Bool.false_eq_true, if_false, hp]
        refine ih (n + 1) _ ?_
        intro c hc
        rcases List.mem_append.mp hc with h1 | h1
        · exact h c h1
        · rcases List.mem_singleton.mp h1 with rfl
          exact taskCall_usesSelection ext args ij

/-- C5: a measurement-vector direction group whose (squared) norm is at most
`(1e-4)^2` — equivalently whose norm is at most `1e-4` — is never among the
selected active groups; when no group of the task is active the solver is
invoked with exactly one fallback target, the first q-vector re-expressed in
the positioner's frame (`positioner.pose[0:3,0:3].T @ q_vec[0]`), paired
with the first q-vector as its constraint; and every solver call of any run
uses exactly the targets computed by this selection for its task. -/
theorem claim5_active_direction_selection {M P : Type} (ext : Externals M P)
    (args : WorkerArgs M) (abortAt : Option ℕ) (groups : List Vec3) :
    (∀ g : ℕ, Vec3.normSq (groups.getD g default) ≤ epsSq → g ∉ selectedIdx groups) ∧
      (selectedIdx groups = [] →
        (selectTargets args.qVec ext.poseRot groups).2 =
            [(Mat3.transpose ext.poseRot).mulVec (args.qVec.headD default)] ∧
          (selectTargets args.qVec ext.poseRot groups).1 = [args.qVec.headD default]) ∧
      (∀ c ∈ (Simulation.execute ext args abortAt).calls,
        callUsesSelection ext args c) := by
  refine ⟨?_, ?_, ?_⟩
  · intro g hg
    simp only [selectedIdx, List.mem_filter, decide_eq_true_eq]
    rintro ⟨-, hlt⟩
    exact absurd hg (not_le.mpr hlt)
  · intro h
    constructor <;> simp [selectTargets, h]
  · exact runTasks_calls_useSelection ext args abortAt _ 0 ⟨[], [], []⟩ (by simp)

/-- C5 witness: the theorem applied to a single all-zero group — the group
is excluded, and the fallback produces exactly one target. -/
theorem claim5_witness :
    (0 ∉ selectedIdx grpW) ∧
      (selectTargets argsW.qVec extW.poseRot grpW).2 =
          [(Mat3.transpose extW.poseRot).mulVec (argsW.qVec.headD default)] ∧
        (selectTargets argsW.qVec extW.poseRot grpW).1 = [argsW.qVec.headD default] :=
  have h := claim5_active_direction_selection extW argsW none grpW
  have hz : Vec3.normSq (grpW.getD 0 default) ≤ epsSq := by
    norm_num [grpW, Vec3.normSq, epsSq]
  have hsel : selectedIdx grpW = [] := by
    norm_num [selectedIdx, grpW, List.range_succ, List.filter, Vec3.normSq, epsSq]
  ⟨h.1 0 hz, (h.2.1 hsel).1, (h.2.1 hsel).2⟩

/-- C6 counterexample: configuring with three vector rows against two
measurement points fails, but with the numpy `IndexError` of the boolean
mask selection `vectors[points.enabled]`, not with the `ConfigError` the
claim names — no `ConfigError` class exists anywhere in the repository. -/
theorem claim6_counterexample :
    Simulation.init prW vrBad 2 = .error SimError.indexError ∧
      SimError.indexError ≠ SimError.configError :=
  ⟨rfl, by decide⟩

/-- C6 amended: configuring a simulation whose vectors' point dimension does
not match the number of measurement points fails at construction,
immediately, with the `IndexError` raised by the boolean-mask selection (the
repository defines no `ConfigError`); the constructor returns no
configuration, so no worker is ever spawned for it. -/
theorem claim6_mismatch_fails_at_construction {β : Type}
    (pointRows : List (Vec3 × Bool)) (vectorRows : List β) (K : ℕ)
    (h : vectorRows.length ≠ pointRows.length) :
    Simulation.init pointRows vectorRows K = .error SimError.indexError := by
  unfold Simulation.init maskSelect
  rw [List.length_map, if_neg h]

/-- C6 witness: the amended theorem at the concrete mismatched input. -/
theorem claim6_witness :
    vrBad.length ≠ prW.length ∧
      Simulation.init prW vrBad 2 = .error SimError.indexError :=
  ⟨by decide, claim6_mismatch_fails_at_construction prW vrBad 2 (by decide)⟩

/-- C7: evaluation at the failing input.  The worker half of the claim holds:
an unhandled fault while processing task 1 of 3 publishes the distinguished
error marker (not a `SimulationResult`) after task 0's result, and tasks 1
and 2 never complete (only one solver call is made).  The controller half is
contradicted by the code: `CheckResult` drains the faulted queue exactly as
it drains any queue — the marker is appended to the result list as if it
were an ordinary result and the single ordinary `result_updated`
notification is emitted; no component of the repository recognizes the
marker or marks the run as failed. -/
theorem claim7_controller_ignores_error_marker :
    (Simulation.execute extF argsW31 none).queue =
        [Item.res (taskRes extF argsW31 (0, 0) 0), Item.errorMarker] ∧
      (Simulation.execute extF argsW31 none).calls.map (fun c => c.task) = [(0, 0)] ∧
      Simulation.CheckResult ⟨(Simulation.execute extF argsW31 none).queue, [], 0, true, false⟩ =
        ⟨[], [Item.res (taskRes extF argsW31 (0, 0) 0), Item.errorMarker], 1, false, false⟩ :=
  ⟨rfl, rfl, rfl⟩

/-- C8: `CheckResult` is idempotent on an empty channel — a poll that finds
no new data changes nothing and emits no notification, so two consecutive
empty polls produce no duplicates and no second notification; a poll that
finds data drains the whole queue into the result list in arrival order,
increments the notification count exactly once, and a second poll right
after it (no new data having arrived) is a no-op. -/
theorem claim8_poll_idempotent_and_drains (s : ControllerState) :
    (s.queue = [] →
      Simulation.CheckResult s = s ∧
        Simulation.CheckResult (Simulation.CheckResult s) = s) ∧
      (s.queue ≠ [] →
        (Simulation.CheckResult s).results = s.results ++ s.queue ∧
          (Simulation.CheckResult s).queue = [] ∧
          (Simulation.CheckResult s).notifyCount = s.notifyCount + 1 ∧
          Simulation.CheckResult (Simulation.CheckResult s) =
            Simulation.CheckResult s) := by
  constructor
  · intro hq
    have h1 : Simulation.CheckResult s = s := by
      simp [Simulation.CheckResult, hq]
    exact ⟨h1, by rw [h1, h1]⟩
  · intro hq
    have hne : s.queue.isEmpty = false := by
      simpa [List.isEmpty_iff] using hq
    by_cases hp : s.processAlive <;>
      refine ⟨?_, ?_, ?_, ?_⟩ <;>
        simp [Simulation.CheckResult, hne, hp]

/-- C8 witness: the theorem applied to a concrete empty state and a concrete
one-result state. -/
theorem claim8_witness :
    (Simulation.CheckResult sEmptyW = sEmptyW ∧
        Simulation.CheckResult (Simulation.CheckResult sEmptyW) = sEmptyW) ∧
      ((Simulation.CheckResult sDataW).results = sDataW.results ++ sDataW.queue ∧
        (Simulation.CheckResult sDataW).queue = [] ∧
        (Simulation.CheckResult sDataW).notifyCount = sDataW.notifyCount + 1 ∧
        Simulation.CheckResult (Simulation.CheckResult sDataW) =
          Simulation.CheckResult sDataW) :=
  ⟨(claim8_poll_idempotent_and_drains sEmptyW).1 rfl,
    (claim8_poll_idempotent_and_drains sDataW).2 (by simp [sDataW])⟩


theorem setExcludeList_length {G : Type} :
    ∀ (l : List (Collider G)) (p t : ℕ), (setExcludeList l p t).length = l.length := by
  intro l
  induction l with
  | nil => intro p t; rfl
  | cons c cs ih =>
    intro p t
    cases p with
    | zero => rfl
    | succ p => simp [setExcludeList, ih]

theorem setExcludeList_get_ne {G : Type} :
    ∀ (l : List (Collider G)) (p t q : ℕ), q ≠ p →
      (setExcludeList l p t).get? q = l.get? q := by
  intro l
  induction l with
  | nil => intro p t q h; rfl
  | cons c cs ih =>
    intro p t q h
    cases p with
    | zero =>
      cases q with
      | zero => exact absurd rfl h
      | succ q => rfl
    | succ p =>
      cases q with
      | zero => rfl
      | succ q =>
        simpa [setExcludeList] using ih p t q (fun hh => h (by rw [hh]))

theorem setExcludeList_get_self {G : Type} :
    ∀ (l : List (Collider G)) (p t : ℕ) (c : Collider G), l.get? p = some c →
      (setExcludeList l p t).get? p = some { c with excludes := t :: c.excludes } := by
  intro l
  induction l with
  | nil => intro p t c h; cases h
  | cons c0 cs ih =>
    intro p t c h
    cases p with
    | zero =>
      cases h
      rfl
    | succ p =>
      simpa [setExcludeList] using ih p t c (by simpa using h)

theorem setExclude_length {G : Type} (mgr : CollisionManager G) (p t : ℕ) :
    (mgr.setExclude p t).colliders.length = mgr.colliders.length :=
  setExcludeList_length mgr.colliders p t

theorem hasExclude_mono_setExclude {G : Type} (mgr : CollisionManager G)
    (p t a b : ℕ) (h : mgr.hasExclude a b = true) :
    (mgr.setExclude p t).hasExclude a b = true := by
  unfold CollisionManager.hasExclude at h ⊢
  unfold CollisionManager.setExclude
  by_cases hap : a = p
  · subst hap
    cases hc : mgr.colliders.get? a with
    | none => rw [hc] at h; cases h
    | some c =>
      rw [hc] at h
      rw [setExcludeList_get_self mgr.colliders a t c hc]
      simp only [List.contains_cons, Bool.or_eq_true]
      exact Or.inr h
  · rw [setExcludeList_get_ne mgr.colliders p t a hap]
    exact h

theorem hasExclude_setExclude_self {G : Type} (mgr : CollisionManager G)
    (p t : ℕ) (hp : p < mgr.colliders.length) :
    (mgr.setExclude p t).hasExclude p t = true := by
  unfold CollisionManager.hasExclude CollisionManager.setExclude
  rw [setExcludeList_get_self mgr.colliders p t (mgr.colliders.get ⟨p, hp⟩)
    (List.get?_eq_get hp)]
  simp

theorem addColliders_length {G : Type} (mgr : CollisionManager G)
    (nodes : List G) (mode : ExcludeMode) (mv : Bool) :
    (mgr.addColliders nodes mode mv).colliders.length =
      mgr.colliders.length + nodes.length := by
  simp [CollisionManager.addColliders]

theorem hasExclude_mono_addColliders {G : Type} (mgr : CollisionManager G)
    (nodes : List G) (mode : ExcludeMode) (mv : Bool) (a b : ℕ)
    (h : mgr.hasExclude a b = true) :
    (mgr.addColliders nodes mode mv).hasExclude a b = true := by
  unfold CollisionManager.hasExclude at h ⊢
  cases hc : mgr.colliders.get? a with
  | none => rw [hc] at h; cases h
  | some c =>
    rw [hc] at h
    have ha : a < mgr.colliders.length := by
      by_contra hcon
      rw [List.get?_eq_none.mpr (Nat.le_of_not_lt hcon)] at hc
      cases hc
    unfold CollisionManager.addColliders
    rw [List.get?_append ha, hc]
    exact h

theorem foldl_pair_length {G : Type} (L : ℕ) :
    ∀ (l : List ℕ) (mgr : CollisionManager G),
      ((l.foldl (fun m s => (m.setExclude s L).setExclude L s) mgr)).colliders.length =
        mgr.colliders.length := by
  intro l
  induction l with
  | nil => intro mgr; rfl
  | cons s0 rest ih =>
    intro mgr
    rw [List.foldl_cons, ih]
    rw [setExclude_length, setExclude_length]

theorem foldl_pair_mono {G : Type} (L : ℕ) :
    ∀ (l : List ℕ) (mgr : CollisionManager G) (a b : ℕ),
      mgr.hasExclude a b = true →
        ((l.foldl (fun m s => (m.setExclude s L).setExclude L s) mgr)).hasExclude a b =
          true := by
  intro l
  induction l with
  | nil => intro mgr a b h; exact h
  | cons s0 rest ih =>
    intro mgr a b h
    rw [List.foldl_cons]
    exact ih _ a b (hasExclude_mono_setExclude _ _ _ a b
      (hasExclude_mono_setExclude _ _ _ a b h))

theorem foldl_pair_establishes {G : Type} (L : ℕ) :
    ∀ (l : List ℕ) (mgr : CollisionManager G), L < mgr.colliders.length →
      (∀ s ∈ l, s < mgr.colliders.length) →
      ∀ s ∈ l,
        ((l.foldl (fun m s => (m.setExclude s L).setExclude L s) mgr)).hasExclude s L =
            true ∧
          ((l.foldl (fun m s => (m.setExclude s L).setExclude L s) mgr)).hasExclude L s =
            true := by
  intro l
  induction l with
  | nil => intro mgr hL hmem s hs; cases hs
  | cons s0 rest ih =>
    intro mgr hL hmem s hs
    rw [List.foldl_cons]
    have hs0 : s0 < mgr.colliders.length := hmem s0 (List.mem_cons_self s0 rest)
    have h1 : ((mgr.setExclude s0 L).setExclude L s0).hasExclude s0 L = true :=
      hasExclude_mono_setExclude _ L s0 s0 L
        (hasExclude_setExclude_self mgr s0 L hs0)
    have h2 : ((mgr.setExclude s0 L).setExclude L s0).hasExclude L s0 = true :=
      hasExclude_setExclude_self (mgr.setExclude s0 L) L s0
        (by rw [setExclude_length]; exact hL)
    rcases List.mem_cons.mp hs with rfl | hrest
    · exact ⟨foldl_pair_mono L rest _ s L h1, foldl_pair_mono L rest _ L s h2⟩
    · refine ih _ ?_ ?_ s hrest
      · rw [setExclude_length, setExclude_length]; exact hL
      · intro u hu
        rw [setExclude_length, setExclude_length]
        exact hmem u (List.mem_cons_of_mem s0 hu)

theorem positionerStep_spec {G P : Type} (gtransform : G → P → G)
    (sampleLen : ℕ) (mgr : CollisionManager G) (posIds : List ℕ)
    (group : List (SceneNode G P))
    (hlen : sampleLen ≤ mgr.colliders.length)
    (hinv : ∀ L, posIds.getLast? = some L → ∀ s, s < sampleLen →
      mgr.hasExclude s L = true ∧ mgr.hasExclude L s = true) :
    sampleLen ≤ (positionerStep gtransform sampleLen mgr posIds group).1.colliders.length ∧
      ∀ L, (positionerStep gtransform sampleLen mgr posIds group).2.getLast? = some L →
        ∀ s, s < sampleLen →
          (positionerStep gtransform sampleLen mgr posIds group).1.hasExclude s L = true ∧
            (positionerStep gtransform sampleLen mgr posIds group).1.hasExclude L s = true := by
  unfold positionerStep
  set nodes := group.map fun nd => gtransform nd.geometry nd.transform with hnodes
  set startId := mgr.colliders.length with hstart
  set mgr1 := mgr.addColliders nodes .consecutive true with hmgr1
  set lastId := mgr1.colliders.length - 1 with hlast
  have hm1 : mgr1.colliders.length = startId + nodes.length := by
    rw [hmgr1, addColliders_length]
  have hm2 : ((List.range sampleLen).foldl
      (fun m s => (m.setExclude s lastId).setExclude lastId s) mgr1).colliders.length =
      mgr1.colliders.length := foldl_pair_length lastId _ mgr1
  constructor
  · simp only [hm2]
    omega
  · intro L hL s hs
    rw [List.getLast?_append, List.getLast?_range'] at hL
    by_cases hc : lastId + 1 - startId = 0
    · rw [if_pos hc] at hL
      simp only [Option.none_or] at hL
      have old := hinv L hL s hs
      exact ⟨foldl_pair_mono lastId _ mgr1 s L
          (hasExclude_mono_addColliders mgr nodes .consecutive true s L old.1),
        foldl_pair_mono lastId _ mgr1 L s
          (hasExclude_mono_addColliders mgr nodes .consecutive true L s old.2)⟩
    · rw [if_neg hc] at hL
      simp only [Option.or_some, Option.some.injEq] at hL
      have hLeq : L = lastId := by omega
      subst hLeq
      by_cases hz : startId + nodes.length = 0
      · exact absurd hs (by omega)
      · have hlt : lastId < mgr1.colliders.length := by omega
        exact foldl_pair_establishes lastId (List.range sampleLen) mgr1 hlt
          (fun u hu => by
            have := List.mem_range.mp hu
            omega)
          s (List.mem_range.mpr hs)

theorem populateLoop_invariant {G P : Type} (gtransform : G → P → G)
    (children : List (SceneNode G P)) (sampleLen : ℕ) :
    ∀ (indices : List (AttrName × ℕ)) (startIdx : ℕ) (mgr : CollisionManager G)
      (posIds : List ℕ),
      sampleLen ≤ mgr.colliders.length →
      (∀ L, posIds.getLast? = some L → ∀ s, s < sampleLen →
        mgr.hasExclude s L = true ∧ mgr.hasExclude L s = true) →
      sampleLen ≤
          (populateLoop gtransform children sampleLen indices startIdx mgr posIds).1.colliders.length ∧
        ∀ L,
          (populateLoop gtransform children sampleLen indices startIdx mgr posIds).2.getLast? =
              some L →
            ∀ s, s < sampleLen →
              (populateLoop gtransform children sampleLen indices startIdx mgr
                    posIds).1.hasExclude s L = true ∧
                (populateLoop gtransform children sampleLen indices startIdx mgr
                      posIds).1.hasExclude L s = true := by
  intro indices
  induction indices with
  | nil => intro startIdx mgr posIds hlen hinv; exact ⟨hlen, hinv⟩
  | cons entry rest ih =>
    intro startIdx mgr posIds hlen hinv
    obtain ⟨name, endIdx⟩ := entry
    by_cases hn : name = AttrName.positioner
    · subst hn
      simp only [populateLoop, if_pos rfl]
      have hstep := positionerStep_spec gtransform sampleLen mgr posIds
        ((children.drop startIdx).take (endIdx - startIdx)) hlen hinv
      exact ih endIdx _ _ hstep.1 hstep.2
    · simp only [populateLoop, if_neg hn]
      refine ih endIdx _ _ ?_ ?_
      · rw [addColliders_length]
        omega
      · intro L hL s hs
        have old := hinv L hL s hs
        exact ⟨hasExclude_mono_addColliders mgr _ .consecutive false s L old.1,
          hasExclude_mono_addColliders mgr _ .consecutive false L s old.2⟩

theorem transformCollider_excludes {G P : Type} (gtransform : G → P → G)
    (mgr : CollisionManager G) (i : ℕ) (p : P) :
    ((transformCollider gtransform mgr i p).colliders.map fun c => c.excludes) =
      mgr.colliders.map fun c => c.excludes := by
  unfold transformCollider
  rw [List.map_map]
  have hfn : ((fun c : Collider G => c.excludes) ∘ fun ic : ℕ × Collider G =>
      if ic.1 = i then { ic.2 with geometry := gtransform ic.2.geometry p } else ic.2) =
      (fun c : Collider G => c.excludes) ∘ Prod.snd := by
    funext ic
    by_cases h : ic.1 = i <;> simp [Function.comp_def, h]
  rw [hfn, ← List.map_map, List.enum_map_snd]

theorem foldl_transform_sample_excludes {G P : Type} (gtransform : G → P → G)
    (pose : P) :
    ∀ (l : List ℕ) (m : CollisionManager G),
      (((l.foldl (fun acc i => transformCollider gtransform acc i pose) m)).colliders.map
          fun c => c.excludes) =
        m.colliders.map fun c => c.excludes := by
  intro l
  induction l with
  | nil => intro m; rfl
  | cons i0 rest ih =>
    intro m
    rw [List.foldl_cons, ih, transformCollider_excludes]

theorem foldl_transform_positioner_excludes {G P : Type} (gtransform : G → P → G) :
    ∀ (l : List (ℕ × SceneNode G P)) (m : CollisionManager G),
      (((l.foldl (fun acc inode =>
            transformCollider gtransform acc inode.1 inode.2.transform) m)).colliders.map
          fun c => c.excludes) =
        m.colliders.map fun c => c.excludes := by
  intro l
  induction l with
  | nil => intro m; rfl
  | cons i0 rest ih =>
    intro m
    rw [List.foldl_cons, ih, transformCollider_excludes]

theorem update_colliders_excludes {G P : Type} (gtransform : G → P → G)
    (mgr : CollisionManager G) (pose : P) (sampleIds : List ℕ)
    (positionerNodes : List (SceneNode G P)) (positionerIds : List ℕ) :
    ((update_colliders gtransform mgr pose sampleIds positionerNodes
          positionerIds).colliders.map fun c => c.excludes) =
      mgr.colliders.map fun c => c.excludes := by
  unfold update_colliders
  rw [foldl_transform_positioner_excludes, foldl_transform_sample_excludes]

/-- C9: once `populate_collision_manager` has populated the manager, the
collision mask returned by any `collide` query has exactly one boolean entry
per collider; every sample collider and the last positioner-link collider
(the tool link, the last entry of the returned positioner id list) mutually
exclude each other; and `update_colliders` — the only mutation applied
between the collision queries of a run — changes geometry only, never any
exclusion set, so the relation persists for every subsequent query. -/
theorem claim9_collision_mask_and_tool_exclusion {G P : Type}
    (gtransform : G → P → G) (sample : List G) (samplePose : P)
    (children : List (SceneNode G P)) (indices : List (AttrName × ℕ)) :
    (∀ touching : ℕ → ℕ → Bool,
      ((populate_collision_manager gtransform sample samplePose children
            indices).1.collide touching).length =
        (populate_collision_manager gtransform sample samplePose children
            indices).1.colliders.length) ∧
      (∀ L, (populate_collision_manager gtransform sample samplePose children
            indices).2.2.getLast? = some L →
        ∀ s ∈ (populate_collision_manager gtransform sample samplePose children
            indices).2.1,
          (populate_collision_manager gtransform sample samplePose children
              indices).1.hasExclude s L = true ∧
            (populate_collision_manager gtransform sample samplePose children
                indices).1.hasExclude L s = true) ∧
      (∀ (pose : P) (sIds : List ℕ) (pNodes : List (SceneNode G P)) (pIds : List ℕ),
        ((update_colliders gtransform
              (populate_collision_manager gtransform sample samplePose children
                indices).1 pose sIds pNodes pIds).colliders.map fun c => c.excludes) =
          (populate_collision_manager gtransform sample samplePose children
              indices).1.colliders.map fun c => c.excludes) := by
  have hlen0 : sample.length ≤
      ((CollisionManager.empty (G := G)).addColliders
        (sample.map fun g => gtransform g samplePose) .all true).colliders.length := by
    rw [addColliders_length]
    simp [CollisionManager.empty]
  have hmain := populateLoop_invariant gtransform children sample.length indices 0
    ((CollisionManager.empty).addColliders
      (sample.map fun g => gtransform g samplePose) .all true) []
    hlen0 (by intro L hL; simp at hL)
  refine ⟨?_, ?_, ?_⟩
  · intro touching
    simp [CollisionManager.collide]
  · intro L hL s hs
    simp only [populate_collision_manager] at hL hs ⊢
    exact hmain.2 L hL s (List.mem_range.mp hs)
  · intro pose sIds pNodes pIds
    exact update_colliders_excludes gtransform _ pose sIds pNodes pIds

/-- C9 witness: the theorem at one sample mesh and a two-link positioner —
the mask has one entry per collider, sample collider 0 and tool collider 2
mutually exclude each other, and an update leaves every exclusion set
unchanged. -/
theorem claim9_witness :
    (((populate_collision_manager (fun (g : ℕ) (_ : Unit) => g) [0] () childW
            idxW).1.collide fun _ _ => true).length =
        (populate_collision_manager (fun (g : ℕ) (_ : Unit) => g) [0] () childW
            idxW).1.colliders.length) ∧
      ((populate_collision_manager (fun (g : ℕ) (_ : Unit) => g) [0] () childW
            idxW).1.hasExclude 0 2 = true ∧
        (populate_collision_manager (fun (g : ℕ) (_ : Unit) => g) [0] () childW
            idxW).1.hasExclude 2 0 = true) ∧
      ((update_colliders (fun (g : ℕ) (_ : Unit) => g)
            (populate_collision_manager (fun (g : ℕ) (_ : Unit) => g) [0] () childW
              idxW).1 () [0] [] []).colliders.map fun c => c.excludes) =
        (populate_collision_manager (fun (g : ℕ) (_ : Unit) => g) [0] () childW
            idxW).1.colliders.map fun c => c.excludes :=
  have h := claim9_collision_mask_and_tool_exclusion
    (fun (g : ℕ) (_ : Unit) => g) [0] () childW idxW
  ⟨h.1 (fun _ _ => true), h.2.1 2 (by decide) 0 (by decide), h.2.2 () [0] [] []⟩


theorem processTask_strip_sample {M P : Type} (ext : Externals M P)
    (args : WorkerArgs M) (s2 : List M) (abortAt : Option ℕ) (ij : ℕ × ℕ) (n : ℕ)
    (h : s2.headD ext.meshDefault = args.sample.headD ext.meshDefault) :
    stripOutcome (processTask ext { args with sample := s2 } abortAt ij n) =
      stripOutcome (processTask ext args abortAt ij n) := by
  simp only [processTask, h]
  split
  · rfl
  · split
    · rfl
    · split
      · rfl
      · simp [stripOutcome, stripMask]

theorem runTasks_strip_sample {M P : Type} (ext : Externals M P)
    (args : WorkerArgs M) (s2 : List M) (abortAt : Option ℕ)
    (h : s2.headD ext.meshDefault = args.sample.headD ext.meshDefault) :
    ∀ (order : List (ℕ × ℕ)) (n : ℕ) (acc1 acc2 : WorkerOut),
      stripItems acc1.queue = stripItems acc2.queue → acc1.buffer = acc2.buffer →
      acc1.calls = acc2.calls →
      stripItems (runTasks ext { args with sample := s2 } abortAt order n acc1).queue =
          stripItems (runTasks ext args abortAt order n acc2).queue ∧
        (runTasks ext { args with sample := s2 } abortAt order n acc1).buffer =
          (runTasks ext args abortAt order n acc2).buffer ∧
        (runTasks ext { args with sample := s2 } abortAt order n acc1).calls =
          (runTasks ext args abortAt order n acc2).calls := by
  intro order
  induction order with
  | nil => intro n acc1 acc2 h1 h2 h3; exact ⟨h1, h2, h3⟩
  | cons ij rest ih =>
    intro n acc1 acc2 h1 h2 h3
    have hstrip := processTask_strip_sample ext args s2 abortAt ij n h
    cases hf : ext.fault n with
    | true =>
      simp only [runTasks, hf, if_true]
      refine ⟨?_, h2, h3⟩
      simp only [stripItems] at h1 ⊢
      simp [List.map_append, h1]
    | false =>
      cases hp2 : processTask ext { args with sample := s2 } abortAt ij n with
      | stopped c w =>
        cases hp1 : processTask ext args abortAt ij n with
        | stopped c' w' =>
          rw [hp1, hp2] at hstrip
          simp only [stripOutcome, TaskOutcome.stopped.injEq] at hstrip
          obtain ⟨rfl, rfl⟩ := hstrip
          simp only [runTasks, hf, Bool.false_eq_true, if_false, hp1, hp2]
          exact ⟨h1, by rw [h2], by rw [h3]⟩
        | done c' w' r' =>
          rw [hp1, hp2] at hstrip
          simp [stripOutcome] at hstrip
      | done c w r =>
        cases hp1 : processTask ext args abortAt ij n with
        | stopped c' w' =>
          rw [hp1, hp2] at hstrip
          simp [stripOutcome] at hstrip
        | done c' w' r' =>
          rw [hp1, hp2] at hstrip
          simp only [stripOutcome, TaskOutcome.done.injEq] at hstrip
          obtain ⟨rfl, rfl, hr⟩ := hstrip
          simp only [runTasks, hf, Bool.false_eq_true, if_false, hp1, hp2]
          refine ih (n + 1) _ _ ?_ (by rw [h2]) (by rw [h3])
          simp only [stripItems] at h1 ⊢
          simp [List.map_append, stripItem, h1, hr]

/-- C10: the worker's path-length stage reads the sample list only through
its first mesh (`sample[0].transformed(pose)`): replacing the
configuration's sample list by any list with the same first mesh leaves
every path-length observable of the run unchanged — every write into the
shared path-length buffer, every published result up to its collision-mask
field (in particular every result's per-detector `path_length`), and every
solver call — for every task, every cancellation time and every fault
pattern.  Additional sample meshes never contribute to the computed path
lengths; only the collision mask (whose colliders are populated from the
full sample list) may differ. -/
theorem claim10_only_first_sample_mesh {M P : Type} (ext : Externals M P)
    (args : WorkerArgs M) (s2 : List M) (abortAt : Option ℕ)
    (h : s2.headD ext.meshDefault = args.sample.headD ext.meshDefault) :
    (Simulation.execute ext { args with sample := s2 } abortAt).buffer =
        (Simulation.execute ext args abortAt).buffer ∧
      stripItems (Simulation.execute ext { args with sample := s2 } abortAt).queue =
        stripItems (Simulation.execute ext args abortAt).queue ∧
      (Simulation.execute ext { args with sample := s2 } abortAt).calls =
        (Simulation.execute ext args abortAt).calls := by
  have hrun := runTasks_strip_sample ext args s2 abortAt h
    (enumOrder args.alignFirstOrder args.nPoints args.nAlign) 0
    ⟨[], [], []⟩ ⟨[], [], []⟩ rfl rfl rfl
  exact ⟨hrun.2.1, hrun.1, hrun.2.2⟩

/-- C10 witness: with collision checking on and a mask that genuinely
depends on the whole sample list, swapping the second sample mesh (`[5, 7]`
to `[5, 9]`) leaves the buffer, the mask-stripped results and the solver
calls unchanged. -/
theorem claim10_witness :
    (Simulation.execute extN2 { argsN2 with sample := [5, 9] } none).buffer =
        (Simulation.execute extN2 argsN2 none).buffer ∧
      stripItems (Simulation.execute extN2 { argsN2 with sample := [5, 9] } none).queue =
        stripItems (Simulation.execute extN2 argsN2 none).queue ∧
      (Simulation.execute extN2 { argsN2 with sample := [5, 9] } none).calls =
        (Simulation.execute extN2 argsN2 none).calls :=
  claim10_only_first_sample_mesh extN2 argsN2 [5, 9] none rfl
